import Mathlib

/-!
Verification of the point-cloud decoder in
`unitree_webrtc_connect/lidar/pointcloud2_decoder.py`.

The decoder receives a raw byte buffer and dispatches on its length to one of
three fixed binary layouts.  We embed the byte buffer as `List Byte`
(`Byte := Fin 256`), the numpy primitives `frombuffer` and `reshape` as
`Except String`-valued functions (they raise `ValueError` in Python when the
buffer length is not a multiple of the element size, resp. when the element
count does not match the requested shape), and the top-level
`try ... except` of `decode` as a `match` on the `Except` value.

32-bit IEEE-754 floats are modelled exactly over `ℚ`: a little-endian bit
pattern is mapped to its exact rational value (`f32ToRat`); the single
arithmetic operation of the decoder, division of an int16-derived float by
1000.0, is modelled as exact rational division.  Bit patterns with exponent
field 255 (infinities and NaNs) have no rational value and are mapped to 0;
no claim depends on their value because decoder and specification are
compared through the same interpretation function.
-/

abbrev Byte := Fin 256

/-- Result record returned by `PointCloud2Decoder.decode`.  The Python code
returns a dict whose keys `intensities`, `format` and `error` are present
only on some paths; absence is modelled by `Option`. -/
structure DecodedPointCloud where
  point_count : Nat
  points : List (ℚ × ℚ × ℚ)
  intensities : Option (List ℚ)
  format : Option String
  error : Option String
deriving DecidableEq

/-- Sidecar metadata passed to `decode`; its shape is unconstrained and it is
never consulted, so any concrete carrier works.  We use string pairs. -/
abbrev Metadata := List (String × String)

/-- Little-endian signed 16-bit integer from two bytes
(numpy `dtype=np.int16` element). -/
def i16_of_le_bytes (lo hi : Byte) : Int :=
  let u : Nat := lo.val + 256 * hi.val
  if u < 32768 then (u : Int) else (u : Int) - 65536

/-- Exact rational value of an IEEE-754 binary32 bit pattern.
Exponent field 255 (Inf/NaN) has no rational value and is mapped to 0. -/
def f32ToRat (bits : Nat) : ℚ :=
  let sign : Nat := bits / 2 ^ 31 % 2
  let e : Nat := bits / 2 ^ 23 % 2 ^ 8
  let frac : Nat := bits % 2 ^ 23
  let mag : ℚ :=
    if e = 0 then (frac : ℚ) / 2 ^ 149
    else if e = 255 then 0
    else ((2 ^ 23 + frac : ℕ) : ℚ) * 2 ^ e / 2 ^ 150
  if sign = 1 then -mag else mag

/-- Little-endian 32-bit float starting at byte offset `off` of the buffer
(numpy `dtype=np.float32` element), as its exact rational value. -/
def f32le (buf : List Byte) (off : Nat) : ℚ :=
  f32ToRat ((buf.getD off 0).val + 256 * (buf.getD (off + 1) 0).val +
    65536 * (buf.getD (off + 2) 0).val + 16777216 * (buf.getD (off + 3) 0).val)

/-- `np.frombuffer(binary_data, dtype=np.int16)`: fails when the buffer length
is not a multiple of the element size (2), otherwise yields the little-endian
int16 sequence. -/
def np_frombuffer_int16 (buf : List Byte) : Except String (List Int) :=
  if buf.length % 2 = 0 then
    Except.ok ((List.range (buf.length / 2)).map fun i =>
      i16_of_le_bytes (buf.getD (2 * i) 0) (buf.getD (2 * i + 1) 0))
  else Except.error "buffer size must be a multiple of element size"

/-- `np.frombuffer(binary_data, dtype=np.float32)`: fails when the buffer
length is not a multiple of the element size (4), otherwise yields the
little-endian float32 sequence (as exact rationals). -/
def np_frombuffer_float32 (buf : List Byte) : Except String (List ℚ) :=
  if buf.length % 4 = 0 then
    Except.ok ((List.range (buf.length / 4)).map fun i => f32le buf (4 * i))
  else Except.error "buffer size must be a multiple of element size"

/-- `arr.reshape((rows, cols))`: fails when the element count does not equal
`rows * cols`, otherwise yields the row-major matrix. -/
def np_reshape (flat : List α) (rows cols : Nat) : Except String (List (List α)) :=
  if flat.length = rows * cols then
    Except.ok ((List.range rows).map fun i => (flat.drop (i * cols)).take cols)
  else Except.error "cannot reshape array"

/-- The empty result `{"point_count": 0, "points": np.array([])}`. -/
def emptyResult : DecodedPointCloud :=
  { point_count := 0, points := [], intensities := none, format := none, error := none }

/-- `PointCloud2Decoder._decode_int16_12byte`: guard on `len % 12`, then
reinterpret as int16, reshape to `(n, 6)`, keep the first three columns and
scale by `1 / 1000.0`. -/
def decode_int16_12byte (buf : List Byte) : Except String DecodedPointCloud :=
  if buf.length % 12 ≠ 0 then Except.ok emptyResult
  else
    let num_points := buf.length / 12
    (np_frombuffer_int16 buf).bind fun flat =>
      (np_reshape flat num_points 6).bind fun rows =>
        Except.ok
          { point_count := num_points
            points := rows.map fun r =>
              (((r.getD 0 0 : Int) : ℚ) / 1000, ((r.getD 1 0 : Int) : ℚ) / 1000,
                ((r.getD 2 0 : Int) : ℚ) / 1000)
            intensities := none
            format := some "g1_slam_int16_12byte"
            error := none }

/-- `PointCloud2Decoder._decode_xyzi_float32`: reinterpret as float32,
reshape to `(n, 4)`, columns 0-2 are the points, column 3 the intensities. -/
def decode_xyzi_float32 (buf : List Byte) : Except String DecodedPointCloud :=
  let num_points := buf.length / 16
  (np_frombuffer_float32 buf).bind fun flat =>
    (np_reshape flat num_points 4).bind fun rows =>
      Except.ok
        { point_count := num_points
          points := rows.map fun r => (r.getD 0 0, r.getD 1 0, r.getD 2 0)
          intensities := some (rows.map fun r => r.getD 3 0)
          format := some "xyzi_float32"
          error := none }

/-- `PointCloud2Decoder._decode_xyz_float32`: reinterpret as float32,
reshape to `(n, 3)`. -/
def decode_xyz_float32 (buf : List Byte) : Except String DecodedPointCloud :=
  let num_points := buf.length / 12
  (np_frombuffer_float32 buf).bind fun flat =>
    (np_reshape flat num_points 3).bind fun rows =>
      Except.ok
        { point_count := num_points
          points := rows.map fun r => (r.getD 0 0, r.getD 1 0, r.getD 2 0)
          intensities := none
          format := some "xyz_float32"
          error := none }

/-- The body of the `try` block of `PointCloud2Decoder.decode`: the
length-based dispatch, in source order. -/
def decodeCore (buf : List Byte) : Except String DecodedPointCloud :=
  if buf.length = 0 then Except.ok emptyResult
  else if buf.length % 12 = 0 then decode_int16_12byte buf
  else if buf.length % 16 = 0 then decode_xyzi_float32 buf
  else if buf.length % 12 = 0 then decode_xyz_float32 buf
  else decode_int16_12byte buf

/-- `PointCloud2Decoder.decode`: runs the dispatch and converts any raised
exception into the `error` field of an otherwise empty result.  The
`metadata` argument is accepted but never consulted. -/
def decode (buf : List Byte) (metadata : Option Metadata) : DecodedPointCloud :=
  match decodeCore buf with
  | Except.ok r => r
  | Except.error e =>
      { point_count := 0, points := [], intensities := none, format := none,
        error := some e }

example :
    decode [232, 3, 208, 7, 12, 254, 0, 0, 0, 0, 0, 0] none =
      { point_count := 1, points := [(1, 2, -1/2)], intensities := none,
        format := some "g1_slam_int16_12byte", error := none } := by
  simp +decide [decode, decodeCore, decode_int16_12byte, np_frombuffer_int16,
    np_reshape, emptyResult, i16_of_le_bytes, List.range_succ, Except.bind]
  norm_num [show ((232 : Byte) : Nat) = 232 from rfl, show ((3 : Byte) : Nat) = 3 from rfl,
    show ((208 : Byte) : Nat) = 208 from rfl, show ((7 : Byte) : Nat) = 7 from rfl,
    show ((12 : Byte) : Nat) = 12 from rfl, show ((254 : Byte) : Nat) = 254 from rfl]

example :
    decode (List.replicate 16 0) none =
      { point_count := 1, points := [(0, 0, 0)], intensities := some [0],
        format := some "xyzi_float32", error := none } := by
  simp +decide [decode, decodeCore, decode_xyzi_float32, np_frombuffer_float32,
    np_reshape, emptyResult, f32le, f32ToRat, List.range_succ, List.replicate,
    Except.bind]

example : decode (List.replicate 13 0) none = emptyResult := by
  simp [decode, decodeCore, decode_int16_12byte, emptyResult, List.replicate]

/-- The `j`-th little-endian signed 16-bit field of the `i`-th 12-byte record
of the buffer, as the specification describes the quantized layout. -/
def recordInt16 (buf : List Byte) (i j : Nat) : Int :=
  i16_of_le_bytes (buf.getD (12 * i + 2 * j) 0) (buf.getD (12 * i + 2 * j + 1) 0)

lemma getD_range_map {α : Type _} (f : Nat → α) {n i : Nat} (d : α) (hi : i < n) :
    (((List.range n).map f).getD i d) = f i := by
  rw [List.getD_eq_getElem?_getD, List.getElem?_map, List.getElem?_range hi]
  rfl

lemma getD_take_drop {α : Type _} (l : List α) (a c j : Nat) (d : α) (hj : j < c) :
    ((l.drop a).take c).getD j d = l.getD (a + j) d := by
  rw [List.getD_eq_getElem?_getD, List.getElem?_take_of_lt hj, List.getElem?_drop,
    List.getD_eq_getElem?_getD]

lemma int16_cell (buf : List Byte) (h : buf.length % 12 = 0) (i j : Nat)
    (hi : i < buf.length / 12) (hj : j < 6) :
    ((((List.range (buf.length / 2)).map fun k =>
        i16_of_le_bytes (buf.getD (2 * k) 0) (buf.getD (2 * k + 1) 0)).drop (i * 6)).take 6).getD j 0
      = recordInt16 buf i j := by
  rw [getD_take_drop _ _ _ _ _ hj]
  rw [getD_range_map _ 0 (show i * 6 + j < buf.length / 2 by omega)]
  have e1 : 2 * (i * 6 + j) = 12 * i + 2 * j := by ring
  rw [recordInt16, e1]

lemma f32_cell (buf : List Byte) (i j : Nat) (hi : i < buf.length / 16) (hj : j < 4) :
    ((((List.range (buf.length / 4)).map fun k => f32le buf (4 * k)).drop (i * 4)).take 4).getD j 0
      = f32le buf (16 * i + 4 * j) := by
  rw [getD_take_drop _ _ _ _ _ hj]
  rw [getD_range_map _ 0 (show i * 4 + j < buf.length / 4 by omega)]
  have e1 : 4 * (i * 4 + j) = 16 * i + 4 * j := by ring
  rw [e1]

/-- On any buffer whose length is a multiple of 12, `_decode_int16_12byte`
succeeds and each point is the scaled first-three-int16 triple of its record. -/
lemma decode_int16_ok (buf : List Byte) (h : buf.length % 12 = 0) :
    decode_int16_12byte buf = Except.ok
      { point_count := buf.length / 12
        points := (List.range (buf.length / 12)).map fun i =>
          ((recordInt16 buf i 0 : ℚ) / 1000, (recordInt16 buf i 1 : ℚ) / 1000,
            (recordInt16 buf i 2 : ℚ) / 1000)
        intensities := none
        format := some "g1_slam_int16_12byte"
        error := none } := by
  have h2 : buf.length % 2 = 0 := by omega
  have hlen : (((List.range (buf.length / 2)).map fun k =>
      i16_of_le_bytes (buf.getD (2 * k) 0) (buf.getD (2 * k + 1) 0)).length)
      = buf.length / 12 * 6 := by
    rw [List.length_map, List.length_range]; omega
  simp only [decode_int16_12byte, h, np_frombuffer_int16, h2, np_reshape, hlen,
    Except.bind, ne_eq, not_true_eq_false, if_false, if_true, ite_true, ite_false,
    reduceIte]
  refine congrArg Except.ok ?_
  simp only [DecodedPointCloud.mk.injEq, List.map_map, true_and, and_true]
  apply List.map_congr_left
  intro i hi
  rw [List.mem_range] at hi
  simp only [Function.comp]
  rw [int16_cell buf h i 0 hi (by omega), int16_cell buf h i 1 hi (by omega),
    int16_cell buf h i 2 hi (by omega)]

/-- On any buffer whose length is a multiple of 16, `_decode_xyzi_float32`
succeeds; points are the first three floats of each record, intensities the
fourth. -/
lemma decode_xyzi_ok (buf : List Byte) (h : buf.length % 16 = 0) :
    decode_xyzi_float32 buf = Except.ok
      { point_count := buf.length / 16
        points := (List.range (buf.length / 16)).map fun i =>
          (f32le buf (16 * i), f32le buf (16 * i + 4), f32le buf (16 * i + 8))
        intensities := some ((List.range (buf.length / 16)).map fun i =>
          f32le buf (16 * i + 12))
        format := some "xyzi_float32"
        error := none } := by
  have h4 : buf.length % 4 = 0 := by omega
  have hlen : (((List.range (buf.length / 4)).map fun k => f32le buf (4 * k)).length)
      = buf.length / 16 * 4 := by
    rw [List.length_map, List.length_range]; omega
  simp only [decode_xyzi_float32, np_frombuffer_float32, h4, np_reshape, hlen,
    Except.bind, if_true, ite_true, reduceIte]
  refine congrArg Except.ok ?_
  simp only [DecodedPointCloud.mk.injEq, List.map_map, true_and, and_true,
    Option.some.injEq]
  constructor
  · apply List.map_congr_left
    intro i hi
    rw [List.mem_range] at hi
    simp only [Function.comp]
    rw [f32_cell buf i 0 hi (by omega), f32_cell buf i 1 hi (by omega),
      f32_cell buf i 2 hi (by omega)]
    norm_num
  · apply List.map_congr_left
    intro i hi
    rw [List.mem_range] at hi
    simp only [Function.comp]
    rw [f32_cell buf i 3 hi (by omega)]

lemma decode_int16_guard (buf : List Byte) (h : buf.length % 12 ≠ 0) :
    decode_int16_12byte buf = Except.ok emptyResult := by
  simp [decode_int16_12byte, h]

lemma decodeCore_of_mod12 (buf : List Byte) (hne : buf.length ≠ 0)
    (h : buf.length % 12 = 0) : decodeCore buf = decode_int16_12byte buf := by
  simp [decodeCore, hne, h]

lemma decodeCore_of_mod16 (buf : List Byte) (h12 : buf.length % 12 ≠ 0)
    (h16 : buf.length % 16 = 0) : decodeCore buf = decode_xyzi_float32 buf := by
  have hne : buf.length ≠ 0 := by omega
  simp [decodeCore, hne, h12, h16]

lemma decodeCore_fallback (buf : List Byte) (h12 : buf.length % 12 ≠ 0)
    (h16 : buf.length % 16 ≠ 0) : decodeCore buf = decode_int16_12byte buf := by
  have hne : buf.length ≠ 0 := by omega
  simp [decodeCore, hne, h12, h16]

lemma decode_eq (buf : List Byte) (md : Option Metadata) (r : DecodedPointCloud)
    (h : decodeCore buf = Except.ok r) : decode buf md = r := by
  simp [decode, h]

/-- The dispatch body always succeeds, and its result has no error, never
carries the `xyz_float32` tag, and satisfies the length invariants. -/
lemma decodeCore_spec (buf : List Byte) : ∃ r, decodeCore buf = Except.ok r ∧
    r.error = none ∧ r.format ≠ some "xyz_float32" ∧
    r.points.length = r.point_count ∧
    ∀ l, r.intensities = some l → l.length = r.point_count := by
  by_cases h0 : buf.length = 0
  · refine ⟨emptyResult, by simp [decodeCore, h0], ?_⟩
    simp [emptyResult]
  by_cases h12 : buf.length % 12 = 0
  · refine ⟨_, by rw [decodeCore_of_mod12 buf h0 h12, decode_int16_ok buf h12], ?_⟩
    simp
  by_cases h16 : buf.length % 16 = 0
  · refine ⟨_, by rw [decodeCore_of_mod16 buf h12 h16, decode_xyzi_ok buf h16], ?_⟩
    refine ⟨rfl, by simp, by simp, ?_⟩
    intro l hl
    rw [Option.some.injEq] at hl
    subst hl
    simp
  · refine ⟨emptyResult,
      by rw [decodeCore_fallback buf h12 h16, decode_int16_guard buf h12], ?_⟩
    simp [emptyResult]

/-- C1: for every input byte buffer and optional metadata, `decode` returns a
`DecodedPointCloud` and never propagates an exception: when the dispatch body
succeeds its result is returned unchanged, and every failure is converted into
the `error` field of an otherwise empty returned value. -/
theorem decode_total_never_raises (buf : List Byte) (md : Option Metadata) :
    (∃ r, decodeCore buf = Except.ok r ∧ decode buf md = r) ∨
    (∃ e, decodeCore buf = Except.error e ∧ decode buf md =
      { point_count := 0, points := [], intensities := none, format := none,
        error := some e }) := by
  cases h : decodeCore buf with
  | ok r => exact Or.inl ⟨r, rfl, by simp [decode, h]⟩
  | error e => exact Or.inr ⟨e, rfl, by simp [decode, h]⟩

/-- C2: on every non-empty buffer of length `12*n`, `decode` selects the
16-bit quantized layout: `point_count = n`, format `g1_slam_int16_12byte`,
no intensities, and point `i` is the first three little-endian signed 16-bit
fields of record `i`, each divided by 1000; the other three fields are
discarded. -/
theorem decode_int16_layout (buf : List Byte) (md : Option Metadata) (n : Nat)
    (hn : 1 ≤ n) (hlen : buf.length = 12 * n) :
    (decode buf md).point_count = n ∧
    (decode buf md).format = some "g1_slam_int16_12byte" ∧
    (decode buf md).intensities = none ∧
    (decode buf md).points = (List.range n).map (fun i =>
      ((recordInt16 buf i 0 : ℚ) / 1000, (recordInt16 buf i 1 : ℚ) / 1000,
        (recordInt16 buf i 2 : ℚ) / 1000)) := by
  have h12 : buf.length % 12 = 0 := by omega
  have hne : buf.length ≠ 0 := by omega
  have hn12 : buf.length / 12 = n := by omega
  have hcore := decodeCore_of_mod12 buf hne h12
  rw [decode_int16_ok buf h12] at hcore
  rw [decode_eq buf md _ hcore, hn12]
  exact ⟨rfl, rfl, rfl, rfl⟩

/-- Witness for C2 at the specification's concrete scenario: the 12-byte
buffer encoding the int16 values `[1000, 2000, -500, 0, 0, 0]`. -/
theorem decode_int16_layout_witness :
    1 ≤ 1 ∧ ([232, 3, 208, 7, 12, 254, 0, 0, 0, 0, 0, 0] : List Byte).length = 12 * 1 ∧
    ((decode [232, 3, 208, 7, 12, 254, 0, 0, 0, 0, 0, 0] none).point_count = 1 ∧
     (decode [232, 3, 208, 7, 12, 254, 0, 0, 0, 0, 0, 0] none).format =
       some "g1_slam_int16_12byte" ∧
     (decode [232, 3, 208, 7, 12, 254, 0, 0, 0, 0, 0, 0] none).intensities = none ∧
     (decode [232, 3, 208, 7, 12, 254, 0, 0, 0, 0, 0, 0] none).points =
       (List.range 1).map (fun i =>
         ((recordInt16 [232, 3, 208, 7, 12, 254, 0, 0, 0, 0, 0, 0] i 0 : ℚ) / 1000,
          (recordInt16 [232, 3, 208, 7, 12, 254, 0, 0, 0, 0, 0, 0] i 1 : ℚ) / 1000,
          (recordInt16 [232, 3, 208, 7, 12, 254, 0, 0, 0, 0, 0, 0] i 2 : ℚ) / 1000))) :=
  ⟨le_refl 1, by decide,
    decode_int16_layout [232, 3, 208, 7, 12, 254, 0, 0, 0, 0, 0, 0] none 1
      (le_refl 1) (by decide)⟩

/-- C3: the 32-bit float XYZ layout is dead code: no call to `decode` ever
returns the `xyz_float32` format tag, because the `% 12 == 0` branch is
checked first and claims every length the XYZ branch could accept. -/
theorem decode_never_xyz_float32 (buf : List Byte) (md : Option Metadata) :
    (decode buf md).format ≠ some "xyz_float32" := by
  obtain ⟨r, hr, _, hfmt, _⟩ := decodeCore_spec buf
  rw [decode_eq buf md r hr]
  exact hfmt

/-- C4: every result of `decode` has exactly `point_count` points, and when
the intensities channel is present it also has exactly `point_count`
entries. -/
theorem decode_length_invariants (buf : List Byte) (md : Option Metadata) :
    (decode buf md).points.length = (decode buf md).point_count ∧
    ∀ l, (decode buf md).intensities = some l →
      l.length = (decode buf md).point_count := by
  obtain ⟨r, hr, _, _, hpts, hint⟩ := decodeCore_spec buf
  rw [decode_eq buf md r hr]
  exact ⟨hpts, hint⟩

/-- Witness for C4 at a concrete 16-byte buffer, where the intensities
channel is present. -/
theorem decode_length_invariants_witness :
    (decode (List.replicate 16 0) none).points.length =
      (decode (List.replicate 16 0) none).point_count ∧
    ∀ l, (decode (List.replicate 16 0) none).intensities = some l →
      l.length = (decode (List.replicate 16 0) none).point_count :=
  decode_length_invariants (List.replicate 16 0) none

/-- C5: on every buffer whose length is a multiple of 16 but not of 12,
`decode` selects the 32-bit float XYZI layout: `point_count = len / 16`,
format `xyzi_float32`, point `i` is the first three little-endian 32-bit
floats of record `i`, and intensity `i` is its fourth float, unscaled. -/
theorem decode_xyzi_layout (buf : List Byte) (md : Option Metadata)
    (h16 : buf.length % 16 = 0) (h12 : buf.length % 12 ≠ 0) :
    (decode buf md).point_count = buf.length / 16 ∧
    (decode buf md).format = some "xyzi_float32" ∧
    (decode buf md).points = (List.range (buf.length / 16)).map (fun i =>
      (f32le buf (16 * i), f32le buf (16 * i + 4), f32le buf (16 * i + 8))) ∧
    (decode buf md).intensities =
      some ((List.range (buf.length / 16)).map fun i => f32le buf (16 * i + 12)) := by
  have hcore := decodeCore_of_mod16 buf h12 h16
  rw [decode_xyzi_ok buf h16] at hcore
  rw [decode_eq buf md _ hcore]
  exact ⟨rfl, rfl, rfl, rfl⟩

/-- Witness for C5 at the 16-byte all-zero buffer. -/
theorem decode_xyzi_layout_witness :
    (List.replicate 16 (0 : Byte)).length % 16 = 0 ∧
    (List.replicate 16 (0 : Byte)).length % 12 ≠ 0 ∧
    ((decode (List.replicate 16 0) none).point_count =
        (List.replicate 16 (0 : Byte)).length / 16 ∧
     (decode (List.replicate 16 0) none).format = some "xyzi_float32" ∧
     (decode (List.replicate 16 0) none).points =
       (List.range ((List.replicate 16 (0 : Byte)).length / 16)).map (fun i =>
         (f32le (List.replicate 16 0) (16 * i), f32le (List.replicate 16 0) (16 * i + 4),
           f32le (List.replicate 16 0) (16 * i + 8))) ∧
     (decode (List.replicate 16 0) none).intensities =
       some ((List.range ((List.replicate 16 (0 : Byte)).length / 16)).map fun i =>
         f32le (List.replicate 16 0) (16 * i + 12))) :=
  ⟨by decide, by decide,
    decode_xyzi_layout (List.replicate 16 0) none (by decide) (by decide)⟩

/-- C6: on every buffer whose length is divisible by neither 12 nor 16,
`decode` falls back to the 16-bit quantized decoder, whose internal length
re-validation fails, yielding `point_count = 0`, empty points, no error and
no format tag, without any exception. -/
theorem decode_unaligned_fallback (buf : List Byte) (md : Option Metadata)
    (h12 : buf.length % 12 ≠ 0) (h16 : buf.length % 16 ≠ 0) :
    decodeCore buf = decode_int16_12byte buf ∧
    (decode buf md).point_count = 0 ∧ (decode buf md).points = [] ∧
    (decode buf md).error = none := by
  have hfb := decodeCore_fallback buf h12 h16
  have hg := decode_int16_guard buf h12
  rw [decode_eq buf md emptyResult (hfb.trans hg)]
  exact ⟨hfb, rfl, rfl, rfl⟩

/-- Witness for C6 at a 13-byte buffer. -/
theorem decode_unaligned_fallback_witness :
    (List.replicate 13 (0 : Byte)).length % 12 ≠ 0 ∧
    (List.replicate 13 (0 : Byte)).length % 16 ≠ 0 ∧
    (decodeCore (List.replicate 13 0) = decode_int16_12byte (List.replicate 13 0) ∧
     (decode (List.replicate 13 0) none).point_count = 0 ∧
     (decode (List.replicate 13 0) none).points = [] ∧
     (decode (List.replicate 13 0) none).error = none) :=
  ⟨by decide, by decide,
    decode_unaligned_fallback (List.replicate 13 0) none (by decide) (by decide)⟩

/-- C7: on the empty buffer, `decode` returns the degenerate success:
zero points, no error and no format tag. -/
theorem decode_empty_buffer (md : Option Metadata) :
    (decode [] md).point_count = 0 ∧ (decode [] md).points = [] ∧
    (decode [] md).error = none ∧ (decode [] md).format = none :=
  ⟨rfl, rfl, rfl, rfl⟩

/-- C8: in every result of `decode`, the `error` field excludes a non-trivial
format tag: either there is no error, or the result has no format tag, zero
`point_count` and empty points. -/
theorem decode_error_format_exclusive (buf : List Byte) (md : Option Metadata) :
    (decode buf md).error = none ∨
    ((decode buf md).format = none ∧ (decode buf md).point_count = 0 ∧
      (decode buf md).points = []) := by
  obtain ⟨r, hr, herr, _⟩ := decodeCore_spec buf
  rw [decode_eq buf md r hr]
  exact Or.inl herr

/-- C9: `decode` is a deterministic pure function of the buffer alone:
repeated calls agree, and the result is independent of the metadata
argument. -/
theorem decode_pure_metadata_independent (buf : List Byte)
    (md md1 md2 : Option Metadata) :
    decode buf md = decode buf md ∧ decode buf md1 = decode buf md2 :=
  ⟨rfl, rfl⟩

/-- C10: the top-level exception handler of `decode` is unreachable: the
dispatch body succeeds on every input, so no returned result ever carries an
`error` field. -/
theorem decode_handler_unreachable (buf : List Byte) (md : Option Metadata) :
    (∃ r, decodeCore buf = Except.ok r) ∧ (decode buf md).error = none := by
  obtain ⟨r, hr, herr, _⟩ := decodeCore_spec buf
  rw [decode_eq buf md r hr]
  exact ⟨⟨r, hr⟩, herr⟩
